import Mathlib

/-!
Shallow embedding of `src/bdk/usb/usb_gadget_fastboot.c` (the fastboot USB
gadget protocol engine) and proofs about it.

Modelling conventions:
* Bytes are `Nat` (the C code stores ASCII in `char`/`u8`); buffers are
  `List Nat`.  Reading index `i` of a C array is `List.getD buf i 0`; a
  list shorter than the real 65-byte array stands for an array whose
  remaining bytes are zero.
* `u32` arithmetic that could wrap is written with an explicit `% 2 ^ 32`.
* The non-blocking transport primitives (`usb_device_read_ep1_out`,
  `usb_device_write_ep1_in`, the two `*_poll` functions,
  `usb_device_get_suspended`, `usbd_handle_ep0_pending_control_transfer`)
  are external; their per-tick results are supplied by a `TickInput`
  oracle, and the calls the driver makes to them (arming a read, arming a
  write, tearing down, invoking the reload callback, display/maintenance
  hooks) are recorded as an `Event` trace so that ordering properties can
  be stated.
* `RAM_DISK_SZ` (the download capacity) and `USB_EP_BUFFER_MAX_SIZE` (the
  transport chunk limit) live in headers outside this repository snapshot;
  they are passed as parameters `cap` and `epMax`.
-/

namespace HekateFastboot

/-- Bytes of a literal ASCII string. -/
def strBytes (s : String) : List Nat := s.data.map Char.toNat

/-- Embeds `enum fastboot_status` (declaration order is the severity order used by
`fastboot_set_status`). -/
inductive FastbootStatus where
  | normal
  | protocolReset
  | invalidState
  | usbError
  | rebootBootloader
deriving DecidableEq

/-- The numeric value of a `fastboot_status` enumerator (its C declaration
position); `fastboot_set_status` compares these values. -/
def statusRank : FastbootStatus → Nat
  | .normal => 0
  | .protocolReset => 1
  | .invalidState => 2
  | .usbError => 3
  | .rebootBootloader => 4

/-- Embeds `enum fastboot_rx_state`. -/
inductive RxState where
  | invalid
  | idle
  | command
  | download
  | waitingTxForProcess
  | waitingTxForRebootBootloader
deriving DecidableEq

/-- Embeds `enum fastboot_tx_state`. -/
inductive TxState where
  | invalid
  | idle
  | sendResponse
deriving DecidableEq

/-- Embeds `enum fastboot_response_type`. -/
inductive ResponseType where
  | info
  | fail
  | okay
  | data
deriving DecidableEq

/-- Embeds `enum fastboot_disposition`. -/
inductive Disposition where
  | normal
  | download
  | rebootBootloader
deriving DecidableEq

/-- The mutable fields of `usbd_gadget_fastboot_t` (the four callback
pointers are modelled as trace events instead of fields). -/
structure Fastboot where
  status : FastbootStatus
  rx_state : RxState
  tx_state : TxState
  tight_turnaround : Bool
  rx_buffer : List Nat
  rx_length : Nat
  download_head : Nat
  download_size : Nat
  download_amount : Nat
  tx_buffer : List Nat
  tx_length : Nat
deriving DecidableEq

/-- Calls the driver makes to its external collaborators, in order. -/
inductive Event where
  | maintenance
  | displayStatus
  | displayProgress
  | armRxCommand
  | armRxDownload (head len : Nat)
  | armTx (frame : List Nat)
  | interpret
  | teardown
  | reloadNyx
deriving DecidableEq

/-- Result of `usb_device_ep1_out_reading_poll` / `usb_device_ep1_in_writing_poll`:
`0` = done (with a transferred byte count), `3` = still active, other = error. -/
inductive Poll where
  | pending
  | ok (n : Nat)
  | err
deriving DecidableEq

/-- Oracle for the external transport during one scheduling-loop tick. -/
structure TickInput where
  ep0_reset : Bool
  suspended : Bool
  rx_poll : Poll
  rx_data : List Nat
  tx_poll : Poll
  rx_arm_err : Bool
  tx_arm_err : Bool

/-- Embeds `fastboot_set_status`: the status ratchet. -/
def fastboot_set_status (s : Fastboot) (new_status : FastbootStatus) :
    Fastboot × Bool :=
  if statusRank s.status ≤ statusRank new_status then
    ({ s with status := new_status }, true)
  else
    (s, false)

/-- The session state right after `memset(&fastboot, 0, ...)` and
`fastboot.status = FASTBOOT_STATUS_NORMAL` (line 300-302). -/
def initialFastboot : Fastboot :=
  { status := .normal
    rx_state := .invalid
    tx_state := .invalid
    tight_turnaround := false
    rx_buffer := []
    rx_length := 0
    download_head := 0
    download_size := 0
    download_amount := 0
    tx_buffer := []
    tx_length := 0 }

/-- The 4-byte response tag written by the `switch (type)` in
`fastboot_send_response`. -/
def tagBytes : ResponseType → List Nat
  | .info => strBytes "INFO"
  | .fail => strBytes "FAIL"
  | .okay => strBytes "OKAY"
  | .data => strBytes "DATA"

/-- The transmitted response frame built in `fastboot_send_response`:
`memset` to zero, `strcpy` of the tag, `strncpy(tx_buffer + 4, message, 61)`,
later transmitted with length `strlen(tx_buffer)`.  For NUL-free messages
(every call site passes one) this equals the tag followed by the message
truncated to 61 bytes. -/
def buildFrame (t : ResponseType) (msg : List Nat) : List Nat :=
  tagBytes t ++ msg.take 61

/-- Embeds `fastboot_rx_enter_idle`. -/
def fastboot_rx_enter_idle (s : Fastboot) : Fastboot :=
  { s with rx_state := .idle }

/-- Embeds `fastboot_rx_enter_command`: arm a 64-byte read into `rx_buffer`
(raising `UsbError` if the arm fails), then enter the `Command` state. -/
def fastboot_rx_enter_command (s : Fastboot) (arm_err : Bool) :
    Fastboot × List Event :=
  let s1 := if arm_err then (fastboot_set_status s .usbError).1 else s
  ({ s1 with rx_state := .command }, [.armRxCommand])

/-- Embeds `fastboot_rx_enter_waiting_tx_for_process`. -/
def fastboot_rx_enter_waiting_tx_for_process (s : Fastboot) : Fastboot :=
  { s with rx_state := .waitingTxForProcess }

/-- Embeds `fastboot_rx_enter_waiting_tx_for_reboot_bootloader`. -/
def fastboot_rx_enter_waiting_tx_for_reboot_bootloader (s : Fastboot) :
    Fastboot :=
  { s with rx_state := .waitingTxForRebootBootloader }

/-- Embeds `fastboot_tx_enter_idle`. -/
def fastboot_tx_enter_idle (s : Fastboot) : Fastboot :=
  { s with tx_state := .idle }

/-- Embeds `fastboot_tx_enter_send_response`: arm a write of the current
`tx_buffer` frame (raising `UsbError` if the arm fails), then enter the
`SendResponse` state. -/
def fastboot_tx_enter_send_response (s : Fastboot) (arm_err : Bool) :
    Fastboot × List Event :=
  let ev := Event.armTx s.tx_buffer
  let s1 := if arm_err then (fastboot_set_status s .usbError).1 else s
  ({ s1 with tx_state := .sendResponse }, [ev])

/-- Common shape of `fastboot_send_response`: build the frame into
`tx_buffer`, run the disposition-chosen RX arming (`rx_arm`), and only then
arm the TX `SendResponse` write.  Factored out so that the mutual recursion
between `fastboot_send_response` and `fastboot_rx_enter_download` (whose
completion branch sends the `OKAY "got it!"` response with disposition
`Normal`) can be expressed without general recursion. -/
def fastboot_send_response_with (s : Fastboot) (t : ResponseType)
    (msg : List Nat) (rx_arm : Fastboot → Fastboot × List Event)
    (tx_arm_err : Bool) : Fastboot × List Event :=
  let s1 := { s with tx_buffer := buildFrame t msg }
  let r1 := rx_arm s1
  let r2 := fastboot_tx_enter_send_response r1.1 tx_arm_err
  (r2.1, r1.2 ++ r2.2)

/-- Embeds `fastboot_rx_enter_download`: while bytes remain, update the progress
display and arm a read of `min(download_size - download_head, epMax)` bytes
at offset `download_head`; once `download_head ≥ download_size`, clear
`tight_turnaround` and send `OKAY "got it!"` with disposition `Normal`. -/
def fastboot_rx_enter_download (epMax : Nat) (s : Fastboot)
    (rx_arm_err tx_arm_err : Bool) : Fastboot × List Event :=
  if s.download_head < s.download_size then
    let len := min (s.download_size - s.download_head) epMax
    let ev := Event.armRxDownload s.download_head len
    let s1 := if rx_arm_err then (fastboot_set_status s .usbError).1 else s
    ({ s1 with rx_state := .download }, [.displayProgress, ev])
  else
    let s1 := { s with tight_turnaround := false }
    fastboot_send_response_with s1 .okay (strBytes "got it!")
      (fun s2 => fastboot_rx_enter_command s2 rx_arm_err) tx_arm_err

/-- Embeds `fastboot_send_response`: build the frame, resolve the disposition into
the next RX arming, then arm the TX write. -/
def fastboot_send_response (epMax : Nat) (s : Fastboot) (t : ResponseType)
    (d : Disposition) (msg : List Nat) (rx_arm_err tx_arm_err : Bool) :
    Fastboot × List Event :=
  fastboot_send_response_with s t msg
    (fun s2 =>
      match d with
      | .normal => fastboot_rx_enter_command s2 rx_arm_err
      | .download => fastboot_rx_enter_download epMax s2 rx_arm_err tx_arm_err
      | .rebootBootloader =>
          (fastboot_rx_enter_waiting_tx_for_reboot_bootloader s2, []))
    tx_arm_err

/-- Modelled from the spec: `s_printf(message, "%08x", v)` /
`"%08X"` live in `utils/sprintf.c`, which is outside this source snapshot;
the spec says the response carries the 8 hex digits of the value
(lowercase for `%08x`, uppercase for `%08X`).  `digit` renders one nibble. -/
def hex8 (digit : Nat → Nat) (v : Nat) : List Nat :=
  (List.range 8).map (fun i => digit (v / 16 ^ (7 - i) % 16))

/-- Lowercase hex nibble as an ASCII byte. -/
def hexDigitLower (n : Nat) : Nat := if n < 10 then 48 + n else 87 + n

/-- Uppercase hex nibble as an ASCII byte. -/
def hexDigitUpper (n : Nat) : Nat := if n < 10 then 48 + n else 55 + n

/-- The `if`-chain classifying one hex character in the `download:` parse
loop of `fastboot_handle_command`. -/
def hexCharVal (c : Nat) : Option Nat :=
  if 48 ≤ c ∧ c ≤ 57 then some (c - 48)
  else if 97 ≤ c ∧ c ≤ 102 then some (c - 97 + 10)
  else if 65 ≤ c ∧ c ≤ 70 then some (c - 65 + 10)
  else none

/-- The `for (int i = 9; i < 9+8; i++)` parse loop of
`fastboot_handle_command`: shift the `u32` accumulator left one nibble
(wrapping at `2 ^ 32` like the C `<<= 4`) and or in the next digit;
`none` models `parsed_int_ok == false`. -/
def parseHexWindow (buf : List Nat) (i : Nat) : Nat → Nat → Option Nat
  | 0, acc => some acc
  | fuel + 1, acc =>
    match hexCharVal (buf.getD i 0) with
    | some d => parseHexWindow buf (i + 1) fuel (acc * 16 % 2 ^ 32 + d)
    | none => none

/-- The C string stored in a buffer: its bytes up to the first NUL. -/
def cstr (buf : List Nat) : List Nat := buf.takeWhile (fun b => b ≠ 0)

/-- Embeds `fastboot_handle_command`: dispatch on the NUL-terminated command line
in `rx_buffer` and emit exactly one `fastboot_send_response` call.  The
`strncmp`/`strcmp` tests are expressed on `cstr rx_buffer` (equivalent,
since the literals contain no NUL); the `download:` size parse reads the
raw buffer window at indices 9..16 exactly as the C loop does. -/
def fastboot_handle_command (cap epMax : Nat) (s : Fastboot)
    (rx_arm_err tx_arm_err : Bool) : Fastboot × List Event :=
  let command := cstr s.rx_buffer
  let k :=
    if command.take 7 = strBytes "getvar:" then
      let varName := command.drop 7
      if varName = strBytes "version" then
        fastboot_send_response epMax s .okay .normal (strBytes "0.4")
          rx_arm_err tx_arm_err
      else if varName = strBytes "product" then
        fastboot_send_response epMax s .okay .normal (strBytes "Nyx")
          rx_arm_err tx_arm_err
      else if varName = strBytes "max-download-size" then
        fastboot_send_response epMax s .okay .normal (hex8 hexDigitUpper cap)
          rx_arm_err tx_arm_err
      else
        fastboot_send_response epMax s .fail .normal
          (strBytes "unknown variable") rx_arm_err tx_arm_err
    else if command = strBytes "reboot-bootloader" then
      fastboot_send_response epMax s .okay .rebootBootloader []
        rx_arm_err tx_arm_err
    else if command.take 9 = strBytes "download:" then
      match parseHexWindow s.rx_buffer 9 8 0 with
      | none =>
          fastboot_send_response epMax s .fail .normal
            (strBytes "failed to parse size") rx_arm_err tx_arm_err
      | some dl =>
          if dl > cap then
            fastboot_send_response epMax s .fail .normal
              (strBytes "download size too large") rx_arm_err tx_arm_err
          else
            let s1 := { s with
              download_head := 0
              download_amount := 0
              download_size := dl }
            fastboot_send_response epMax s1 .data .download
              (hex8 hexDigitLower dl) rx_arm_err tx_arm_err
    else
      let msg := (strBytes "unknown command: " ++ command.take 44).take 60
      fastboot_send_response epMax s .fail .normal msg rx_arm_err tx_arm_err
  (k.1, .interpret :: k.2)

/-- Embeds `fastboot_rx_state_idle`: no action. -/
def fastboot_rx_state_idle (s : Fastboot) : Fastboot × List Event := (s, [])

/-- Embeds `fastboot_rx_state_command`: poll the armed command read; on success
record `rx_length`, store the received bytes, write the NUL terminator at
index `rx_length`, and enter `WaitingTxForProcess`. -/
def fastboot_rx_state_command (s : Fastboot) (inp : TickInput) :
    Fastboot × List Event :=
  match inp.rx_poll with
  | .pending => (s, [])
  | .err => ((fastboot_set_status s .usbError).1, [])
  | .ok n =>
    let buf := (inp.rx_data.take n ++ s.rx_buffer.drop n).set n 0
    (fastboot_rx_enter_waiting_tx_for_process
      { s with rx_length := n, rx_buffer := buf }, [])

/-- Embeds `fastboot_rx_state_download`: poll the armed download read; on success
record `download_amount`, advance `download_head` (`u32` addition), and
re-run the `Download` entry. -/
def fastboot_rx_state_download (epMax : Nat) (s : Fastboot)
    (inp : TickInput) : Fastboot × List Event :=
  match inp.rx_poll with
  | .pending => (s, [])
  | .err => ((fastboot_set_status s .usbError).1, [])
  | .ok n =>
    let s1 := { s with
      download_amount := n
      download_head := (s.download_head + n) % 2 ^ 32 }
    fastboot_rx_enter_download epMax s1 inp.rx_arm_err inp.tx_arm_err

/-- Embeds `fastboot_rx_state_waiting_tx_for_process`: the TX-idle gate in front
of the command interpreter. -/
def fastboot_rx_state_waiting_tx_for_process (cap epMax : Nat)
    (s : Fastboot) (inp : TickInput) : Fastboot × List Event :=
  if s.tx_state = .idle then
    fastboot_handle_command cap epMax (fastboot_rx_enter_idle s)
      inp.rx_arm_err inp.tx_arm_err
  else
    (s, [])

/-- Embeds `fastboot_rx_state_waiting_tx_for_reboot_bootloader`: the TX-idle gate
that raises the terminal `RebootBootloader` status. -/
def fastboot_rx_state_waiting_tx_for_reboot_bootloader (s : Fastboot) :
    Fastboot × List Event :=
  if s.tx_state = .idle then
    ((fastboot_set_status (fastboot_rx_enter_idle s) .rebootBootloader).1, [])
  else
    (s, [])

/-- Embeds `fastboot_tx_state_send_response`: poll the armed write; on success
record `tx_length` and return to `Idle`. -/
def fastboot_tx_state_send_response (s : Fastboot) (inp : TickInput) :
    Fastboot × List Event :=
  match inp.tx_poll with
  | .pending => (s, [])
  | .err => ((fastboot_set_status s .usbError).1, [])
  | .ok n => (fastboot_tx_enter_idle { s with tx_length := n }, [])

/-- The `switch (fastboot.rx_state)` of the scheduling loop (the `default`
branch raises `InvalidState`). -/
def fastboot_rx_dispatch (cap epMax : Nat) (s : Fastboot) (inp : TickInput) :
    Fastboot × List Event :=
  match s.rx_state with
  | .invalid => ((fastboot_set_status s .invalidState).1, [])
  | .idle => fastboot_rx_state_idle s
  | .command => fastboot_rx_state_command s inp
  | .download => fastboot_rx_state_download epMax s inp
  | .waitingTxForProcess =>
      fastboot_rx_state_waiting_tx_for_process cap epMax s inp
  | .waitingTxForRebootBootloader =>
      fastboot_rx_state_waiting_tx_for_reboot_bootloader s

/-- The `switch (fastboot.tx_state)` of the scheduling loop. -/
def fastboot_tx_dispatch (s : Fastboot) (inp : TickInput) :
    Fastboot × List Event :=
  match s.tx_state with
  | .invalid => ((fastboot_set_status s .invalidState).1, [])
  | .idle => (s, [])
  | .sendResponse => fastboot_tx_state_send_response s inp

/-- One iteration of the `while (fastboot.status == NORMAL)` loop body:
optional maintenance, suspend check (`break` returns `true`), EP0 control
handling, RX step, TX step, optional status display. -/
def fastboot_tick (cap epMax : Nat) (s : Fastboot) (inp : TickInput) :
    Fastboot × List Event × Bool :=
  let evM : List Event := if s.tight_turnaround then [] else [.maintenance]
  if inp.suspended then
    (s, evM, true)
  else
    let s1 := if inp.ep0_reset then (fastboot_set_status s .protocolReset).1
      else s
    let r1 := fastboot_rx_dispatch cap epMax s1 inp
    let r2 := fastboot_tx_dispatch r1.1 inp
    let evD : List Event :=
      if r2.1.tight_turnaround then [] else [.displayStatus]
    (r2.1, evM ++ r1.2 ++ r2.2 ++ evD, false)

/-- The scheduling loop: run ticks while `status == Normal`, consuming one
oracle input per tick; a suspend `break` or an exhausted oracle ends the
run. -/
def fastboot_run (cap epMax : Nat) (s : Fastboot) :
    List TickInput → Fastboot × List Event
  | [] => (s, [])
  | inp :: rest =>
    if s.status = .normal then
      let r := fastboot_tick cap epMax s inp
      if r.2.2 then
        (r.1, r.2.1)
      else
        let r2 := fastboot_run cap epMax r.1 rest
        (r2.1, r.2.1 ++ r2.2)
    else
      (s, [])

/-- The exit path after the scheduling loop (lines 385-418): `usbd_end`
teardown on every path, then `reload_nyx` exactly when the terminal status
is `RebootBootloader`. -/
def fastboot_session (cap epMax : Nat) (s : Fastboot)
    (inputs : List TickInput) : Fastboot × List Event :=
  let r := fastboot_run cap epMax s inputs
  (r.1, r.2 ++ [.teardown] ++
    (if r.1.status = .rebootBootloader then [.reloadNyx] else []))

/-- The pre-loop initialization (lines 299-315): zeroed session, status
`Normal`, one EP0 control check, arm the first command read, TX idle. -/
def fastboot_init (ep0_reset rx_arm_err : Bool) : Fastboot × List Event :=
  let s1 := if ep0_reset
    then (fastboot_set_status initialFastboot .protocolReset).1
    else initialFastboot
  let r := fastboot_rx_enter_command s1 rx_arm_err
  (fastboot_tx_enter_idle r.1, r.2)

/-- The tick input used by `fastboot_download_deliver`: a completed
download read of `a` bytes on a healthy transport. -/
def deliverInput (a : Nat) : TickInput :=
  { ep0_reset := false
    suspended := false
    rx_poll := .ok a
    rx_data := []
    tx_poll := .pending
    rx_arm_err := false
    tx_arm_err := false }

/-- The download phase of the scheduling loop, restricted to the RX machine
on a healthy transport: one `fastboot_rx_state_download` step per completed
chunk, for as long as the RX machine stays in the `Download` state. -/
def fastboot_download_deliver (epMax : Nat) (s : Fastboot) :
    List Nat → Fastboot × List Event
  | [] => (s, [])
  | a :: rest =>
    if s.rx_state = .download then
      let r := fastboot_rx_state_download epMax s (deliverInput a)
      let r2 := fastboot_download_deliver epMax r.1 rest
      (r2.1, r.2 ++ r2.2)
    else
      (s, [])

/-- The frames of the `armTx` events of a trace, in order: the successive
payloads handed to `usb_device_write_ep1_in`. -/
def armTxFrames (tr : List Event) : List (List Nat) :=
  tr.filterMap (fun e =>
    match e with
    | .armTx f => some f
    | _ => none)

/-! ### Basic lemmas about the status ratchet and the small state helpers -/

theorem set_status_tight_turnaround (s : Fastboot) (x : FastbootStatus) :
    (fastboot_set_status s x).1.tight_turnaround = s.tight_turnaround := by
  unfold fastboot_set_status
  split <;> rfl

theorem set_status_rx_state (s : Fastboot) (x : FastbootStatus) :
    (fastboot_set_status s x).1.rx_state = s.rx_state := by
  unfold fastboot_set_status
  split <;> rfl

theorem set_status_tx_state (s : Fastboot) (x : FastbootStatus) :
    (fastboot_set_status s x).1.tx_state = s.tx_state := by
  unfold fastboot_set_status
  split <;> rfl

theorem set_status_tx_buffer (s : Fastboot) (x : FastbootStatus) :
    (fastboot_set_status s x).1.tx_buffer = s.tx_buffer := by
  unfold fastboot_set_status
  split <;> rfl

theorem set_status_rx_buffer (s : Fastboot) (x : FastbootStatus) :
    (fastboot_set_status s x).1.rx_buffer = s.rx_buffer := by
  unfold fastboot_set_status
  split <;> rfl

theorem set_status_download_head (s : Fastboot) (x : FastbootStatus) :
    (fastboot_set_status s x).1.download_head = s.download_head := by
  unfold fastboot_set_status
  split <;> rfl

theorem set_status_download_size (s : Fastboot) (x : FastbootStatus) :
    (fastboot_set_status s x).1.download_size = s.download_size := by
  unfold fastboot_set_status
  split <;> rfl

theorem set_status_status_ne_reboot (s : Fastboot) (x : FastbootStatus)
    (hx : x ≠ .rebootBootloader) (hs : s.status ≠ .rebootBootloader) :
    (fastboot_set_status s x).1.status ≠ .rebootBootloader := by
  unfold fastboot_set_status
  split <;> simpa

/-! ### C10 / C3: the status ratchet and loop exit -/

/-- C10: `fastboot_set_status` updates the status to `n` and returns `true`
exactly when the current status is at or below `n` in the internal order
`Normal < ProtocolReset < InvalidState < UsbError < RebootBootloader`
(an equal status is re-set successfully), and otherwise leaves the status
unchanged and returns `false`; `RebootBootloader` ranks strictly above
`UsbError`, so a session at `ProtocolReset` or `UsbError` can still be
moved to `RebootBootloader`. -/
theorem C10_set_status_spec :
    (∀ s n, statusRank s.status ≤ statusRank n →
      fastboot_set_status s n = ({ s with status := n }, true)) ∧
    (∀ s n, ¬ statusRank s.status ≤ statusRank n →
      fastboot_set_status s n = (s, false)) ∧
    (statusRank .normal < statusRank .protocolReset ∧
     statusRank .protocolReset < statusRank .invalidState ∧
     statusRank .invalidState < statusRank .usbError ∧
     statusRank .usbError < statusRank .rebootBootloader) ∧
    (∀ s, s.status = .protocolReset ∨ s.status = .usbError →
      fastboot_set_status s .rebootBootloader =
        ({ s with status := .rebootBootloader }, true)) := by
  refine ⟨?_, ?_, by decide, ?_⟩
  · intro s n h
    unfold fastboot_set_status
    rw [if_pos h]
  · intro s n h
    unfold fastboot_set_status
    rw [if_neg h]
  · intro s h
    unfold fastboot_set_status
    rcases h with h | h <;> rw [if_pos (by rw [h]; decide)]

/-- Witness for C10 at concrete inputs: re-setting an equal status
succeeds, a downgrade from `UsbError` to `Normal` is rejected, and a
session at `UsbError` can still move to `RebootBootloader`. -/
theorem C10_set_status_spec_witness :
    fastboot_set_status initialFastboot .normal =
      ({ initialFastboot with status := .normal }, true) ∧
    fastboot_set_status { initialFastboot with status := .usbError } .normal =
      ({ initialFastboot with status := .usbError }, false) ∧
    fastboot_set_status { initialFastboot with status := .usbError }
        .rebootBootloader =
      ({ initialFastboot with status := .rebootBootloader }, true) := by
  refine ⟨?_, ?_, ?_⟩
  · exact C10_set_status_spec.1 initialFastboot .normal (by decide)
  · exact C10_set_status_spec.2.1 { initialFastboot with status := .usbError }
      .normal (by decide)
  · exact C10_set_status_spec.2.2.2 { initialFastboot with status := .usbError }
      (Or.inr rfl)

/-- C3: the session status is a ratchet: a `fastboot_set_status` call whose
argument ranks strictly below the current status leaves the status
unchanged and reports rejection, for every current and attempted status;
the raise sequence `Normal`, then `UsbError`, then `ProtocolReset` ends
with observed status `UsbError`; and once the status is non-`Normal` the
scheduling loop performs no further tick. -/
theorem C3_status_ratchet :
    (∀ s n, statusRank n < statusRank s.status →
      fastboot_set_status s n = (s, false)) ∧
    ((fastboot_set_status
        (fastboot_set_status initialFastboot .usbError).1
        .protocolReset).1.status = .usbError) ∧
    (∀ cap epMax s l, s.status ≠ .normal →
      fastboot_run cap epMax s l = (s, [])) := by
  refine ⟨?_, by decide, ?_⟩
  · intro s n h
    unfold fastboot_set_status
    rw [if_neg (Nat.not_le.2 h)]
  · intro cap epMax s l h
    cases l with
    | nil => rfl
    | cons inp rest =>
      unfold fastboot_run
      rw [if_neg h]

/-- Witness for C3 at concrete inputs: the downgrade from `UsbError` to
`ProtocolReset` is rejected, and a run whose status is already `UsbError`
consumes no tick. -/
theorem C3_status_ratchet_witness :
    fastboot_set_status { initialFastboot with status := .usbError }
        .protocolReset =
      ({ initialFastboot with status := .usbError }, false) ∧
    fastboot_run 134217728 512 { initialFastboot with status := .usbError }
        [deliverInput 0] =
      ({ initialFastboot with status := .usbError }, []) := by
  refine ⟨?_, ?_⟩
  · exact C3_status_ratchet.1 { initialFastboot with status := .usbError }
      .protocolReset (by decide)
  · exact C3_status_ratchet.2.2 134217728 512
      { initialFastboot with status := .usbError } [deliverInput 0] (by decide)

/-! ### C1: RX is re-armed strictly before the TX write is armed -/

/-- C1: in `fastboot_send_response` the disposition is resolved into the
next RX arming strictly before the TX `SendResponse` write is armed, for
every call: the trace is `pre ++ [armTx frame]` where `pre` is the
disposition resolution — `Normal` re-arms the `Command` read, `Download`
arms the `Download` read (or, with no bytes outstanding, finishes the
download, which itself re-arms `Command` before arming its own TX write),
and `RebootBootloader` sets the `WaitingTxForRebootBootloader` gate with
no further read armed. -/
theorem C1_send_response_rx_armed_before_tx (epMax : Nat) (s : Fastboot)
    (t : ResponseType) (d : Disposition) (msg : List Nat) (re te : Bool) :
    ∃ pre,
      (fastboot_send_response epMax s t d msg re te).2 =
        pre ++
          [Event.armTx (fastboot_send_response epMax s t d msg re te).1.tx_buffer] ∧
      (fastboot_send_response epMax s t d msg re te).1.tx_state =
        .sendResponse ∧
      (d = .normal →
        pre = [.armRxCommand] ∧
        (fastboot_send_response epMax s t d msg re te).1.rx_state = .command) ∧
      (d = .rebootBootloader →
        pre = [] ∧
        (fastboot_send_response epMax s t d msg re te).1.rx_state =
          .waitingTxForRebootBootloader) ∧
      (d = .download →
        (s.download_head < s.download_size ∧
          pre = [.displayProgress,
            .armRxDownload s.download_head
              (min (s.download_size - s.download_head) epMax)] ∧
          (fastboot_send_response epMax s t d msg re te).1.rx_state =
            .download) ∨
        (¬ s.download_head < s.download_size ∧
          pre = [.armRxCommand,
            .armTx (buildFrame .okay (strBytes "got it!"))] ∧
          (fastboot_send_response epMax s t d msg re te).1.rx_state =
            .command)) := by
  cases d with
  | normal =>
    refine ⟨[.armRxCommand], ?_, ?_, ?_, ?_, ?_⟩ <;> cases re <;> cases te <;>
      simp [fastboot_send_response, fastboot_send_response_with,
        fastboot_rx_enter_command, fastboot_tx_enter_send_response,
        set_status_tx_buffer, set_status_rx_state]
  | rebootBootloader =>
    refine ⟨[], ?_, ?_, ?_, ?_, ?_⟩ <;> cases re <;> cases te <;>
      simp [fastboot_send_response, fastboot_send_response_with,
        fastboot_rx_enter_waiting_tx_for_reboot_bootloader,
        fastboot_tx_enter_send_response, set_status_tx_buffer,
        set_status_rx_state]
  | download =>
    by_cases hd : s.download_head < s.download_size
    · refine ⟨[.displayProgress,
        .armRxDownload s.download_head
          (min (s.download_size - s.download_head) epMax)], ?_, ?_, ?_, ?_, ?_⟩ <;>
        cases re <;> cases te <;>
        simp [fastboot_send_response, fastboot_send_response_with,
          fastboot_rx_enter_download, hd, fastboot_tx_enter_send_response,
          set_status_tx_buffer, set_status_rx_state,
          set_status_download_head, set_status_download_size]
    · refine ⟨[.armRxCommand,
        .armTx (buildFrame .okay (strBytes "got it!"))], ?_, ?_, ?_, ?_, ?_⟩ <;>
        cases re <;> cases te <;>
        simp [fastboot_send_response, fastboot_send_response_with,
          fastboot_rx_enter_download, hd, fastboot_rx_enter_command,
          fastboot_tx_enter_send_response, set_status_tx_buffer,
          set_status_rx_state]

/-- Witness for C1 at a concrete call: an `OKAY` response with disposition
`Normal` from the initial session state. -/
theorem C1_send_response_rx_armed_before_tx_witness :
    ∃ pre,
      (fastboot_send_response 512 initialFastboot .okay .normal
          (strBytes "0.4") false false).2 =
        pre ++
          [Event.armTx (fastboot_send_response 512 initialFastboot .okay
              .normal (strBytes "0.4") false false).1.tx_buffer] ∧
      (fastboot_send_response 512 initialFastboot .okay .normal
          (strBytes "0.4") false false).1.tx_state = .sendResponse ∧
      (Disposition.normal = .normal →
        pre = [.armRxCommand] ∧
        (fastboot_send_response 512 initialFastboot .okay .normal
            (strBytes "0.4") false false).1.rx_state = .command) ∧
      (Disposition.normal = .rebootBootloader →
        pre = [] ∧
        (fastboot_send_response 512 initialFastboot .okay .normal
            (strBytes "0.4") false false).1.rx_state =
          .waitingTxForRebootBootloader) ∧
      (Disposition.normal = .download →
        (initialFastboot.download_head < initialFastboot.download_size ∧
          pre = [.displayProgress,
            .armRxDownload initialFastboot.download_head
              (min (initialFastboot.download_size -
                initialFastboot.download_head) 512)] ∧
          (fastboot_send_response 512 initialFastboot .okay .normal
              (strBytes "0.4") false false).1.rx_state = .download) ∨
        (¬ initialFastboot.download_head < initialFastboot.download_size ∧
          pre = [.armRxCommand,
            .armTx (buildFrame .okay (strBytes "got it!"))] ∧
          (fastboot_send_response 512 initialFastboot .okay .normal
              (strBytes "0.4") false false).1.rx_state = .command)) :=
  C1_send_response_rx_armed_before_tx 512 initialFastboot .okay .normal
    (strBytes "0.4") false false

/-! ### C4: the WaitingTxForProcess gate in front of the interpreter -/

theorem interp_notin_rx_enter_command (s : Fastboot) (e : Bool) :
    Event.interpret ∉ (fastboot_rx_enter_command s e).2 := by
  simp [fastboot_rx_enter_command]

theorem interp_notin_tx_enter_send_response (s : Fastboot) (e : Bool) :
    Event.interpret ∉ (fastboot_tx_enter_send_response s e).2 := by
  simp [fastboot_tx_enter_send_response]

theorem interp_notin_send_response_with (s : Fastboot) (t : ResponseType)
    (msg : List Nat) (rx_arm : Fastboot → Fastboot × List Event) (te : Bool)
    (h : Event.interpret ∉ (rx_arm { s with tx_buffer := buildFrame t msg }).2) :
    Event.interpret ∉ (fastboot_send_response_with s t msg rx_arm te).2 := by
  simp only [fastboot_send_response_with, fastboot_tx_enter_send_response,
    List.mem_append]
  rintro (hc | hc)
  · exact h hc
  · simp at hc

theorem interp_notin_rx_enter_download (epMax : Nat) (s : Fastboot)
    (e1 e2 : Bool) :
    Event.interpret ∉ (fastboot_rx_enter_download epMax s e1 e2).2 := by
  unfold fastboot_rx_enter_download
  split
  · simp
  · exact interp_notin_send_response_with _ _ _ _ _
      (interp_notin_rx_enter_command _ _)

theorem interp_notin_send_response (epMax : Nat) (s : Fastboot)
    (t : ResponseType) (d : Disposition) (msg : List Nat) (re te : Bool) :
    Event.interpret ∉ (fastboot_send_response epMax s t d msg re te).2 := by
  unfold fastboot_send_response
  apply interp_notin_send_response_with
  cases d
  · exact interp_notin_rx_enter_command _ _
  · exact interp_notin_rx_enter_download _ _ _ _
  · simp

theorem trace_rx_state_command (s : Fastboot) (inp : TickInput) :
    (fastboot_rx_state_command s inp).2 = [] := by
  unfold fastboot_rx_state_command
  cases inp.rx_poll <;> rfl

theorem trace_tx_dispatch (s : Fastboot) (inp : TickInput) :
    (fastboot_tx_dispatch s inp).2 = [] := by
  unfold fastboot_tx_dispatch fastboot_tx_state_send_response
  cases s.tx_state
  · rfl
  · rfl
  · cases inp.tx_poll <;> rfl

theorem ep0_rx_state (s : Fastboot) (b : Bool) :
    (if b then (fastboot_set_status s .protocolReset).1 else s).rx_state =
      s.rx_state := by
  cases b <;> simp [set_status_rx_state]

theorem ep0_tx_state (s : Fastboot) (b : Bool) :
    (if b then (fastboot_set_status s .protocolReset).1 else s).tx_state =
      s.tx_state := by
  cases b <;> simp [set_status_tx_state]

theorem interp_in_rx_dispatch (cap epMax : Nat) (s : Fastboot)
    (inp : TickInput)
    (h : Event.interpret ∈ (fastboot_rx_dispatch cap epMax s inp).2) :
    s.rx_state = .waitingTxForProcess ∧ s.tx_state = .idle := by
  obtain ⟨st, rxs, txs, fl, rb, rl, dh, ds, da, tb, tl⟩ := s
  obtain ⟨e0, su, rp, rd, tp, rae, tae⟩ := inp
  cases rxs <;> unfold fastboot_rx_dispatch at h <;> dsimp only at h
  · simp at h
  · simp [fastboot_rx_state_idle] at h
  · unfold fastboot_rx_state_command at h
    cases rp <;> simp at h
  · unfold fastboot_rx_state_download at h
    cases rp <;> dsimp only at h
    · simp at h
    · exact absurd h (interp_notin_rx_enter_download _ _ _ _)
    · simp at h
  · unfold fastboot_rx_state_waiting_tx_for_process at h
    by_cases ht : txs = TxState.idle
    · exact ⟨rfl, ht⟩
    · rw [if_neg ht] at h
      simp at h
  · unfold fastboot_rx_state_waiting_tx_for_reboot_bootloader at h
    split at h <;> simp at h

/-- C4: the `WaitingTxForProcess` state is a gate: within a scheduling-loop
tick the Command Interpreter is invoked only when the tick began with
`rx_state = WaitingTxForProcess` and `tx_state = Idle`; when the gate
opens, the RX step is exactly the interpreter run on the state whose
`rx_state` was first set to `Idle`; and every interpreter run begins its
trace with the `interpret` event (it runs synchronously within that
step). -/
theorem C4_waiting_tx_for_process_gate :
    (∀ cap epMax s inp,
      Event.interpret ∈ (fastboot_tick cap epMax s inp).2.1 →
      s.rx_state = .waitingTxForProcess ∧ s.tx_state = .idle) ∧
    (∀ cap epMax s inp, s.rx_state = .waitingTxForProcess →
      s.tx_state = .idle →
      fastboot_rx_dispatch cap epMax s inp =
        fastboot_handle_command cap epMax (fastboot_rx_enter_idle s)
          inp.rx_arm_err inp.tx_arm_err) ∧
    (∀ cap epMax s re te, ∃ tr,
      (fastboot_handle_command cap epMax s re te).2 = Event.interpret :: tr) := by
  refine ⟨?_, ?_, ?_⟩
  · intro cap epMax s inp h
    unfold fastboot_tick at h
    by_cases hs : inp.suspended
    · rw [if_pos hs] at h
      split at h <;> simp at h
    · rw [if_neg hs] at h
      simp only [List.mem_append] at h
      have hrx : Event.interpret ∈ (fastboot_rx_dispatch cap epMax
          (if inp.ep0_reset then
            (fastboot_set_status s .protocolReset).1 else s) inp).2 := by
        rcases h with ((h | h) | h) | h
        · split at h <;> simp at h
        · exact h
        · rw [trace_tx_dispatch] at h
          simp at h
        · split at h <;> simp at h
      have h2 := interp_in_rx_dispatch _ _ _ _ hrx
      rw [ep0_rx_state, ep0_tx_state] at h2
      exact h2
  · intro cap epMax s inp hrx htx
    unfold fastboot_rx_dispatch
    rw [hrx]
    unfold fastboot_rx_state_waiting_tx_for_process
    rw [if_pos htx]
  · intro cap epMax s re te
    unfold fastboot_handle_command
    exact ⟨_, rfl⟩

/-- A concrete session state sitting at the open gate: a completed
`getvar:version` command line with TX idle. -/
def gateStateVersion : Fastboot := { initialFastboot with rx_state := .waitingTxForProcess, tx_state := .idle, rx_buffer := strBytes "getvar:version" }

/-- Witness for C4 at a concrete state: the open gate dispatches to the
interpreter run on the `rx_state := Idle` state. -/
theorem C4_waiting_tx_for_process_gate_witness :
    (Event.interpret ∈
      (fastboot_tick 134217728 512 gateStateVersion (deliverInput 0)).2.1 →
      gateStateVersion.rx_state = .waitingTxForProcess ∧
      gateStateVersion.tx_state = .idle) ∧
    fastboot_rx_dispatch 134217728 512 gateStateVersion (deliverInput 0) =
      fastboot_handle_command 134217728 512
        (fastboot_rx_enter_idle gateStateVersion)
        (deliverInput 0).rx_arm_err (deliverInput 0).tx_arm_err := by
  refine ⟨?_, ?_⟩
  · exact C4_waiting_tx_for_process_gate.1 134217728 512 gateStateVersion
      (deliverInput 0)
  · exact C4_waiting_tx_for_process_gate.2.1 134217728 512 gateStateVersion
      (deliverInput 0) rfl rfl

/-! ### Interpreter lemmas shared by the download / unknown-command claims -/

theorem send_response_normal_eq (epMax : Nat) (s : Fastboot)
    (t : ResponseType) (msg : List Nat) :
    fastboot_send_response epMax s t .normal msg false false =
      ({ s with tx_buffer := buildFrame t msg, rx_state := .command, tx_state := .sendResponse },
       [.armRxCommand, .armTx (buildFrame t msg)]) := rfl

theorem send_response_download_eq (epMax : Nat) (s : Fastboot)
    (msg : List Nat) (hd : s.download_head < s.download_size) :
    fastboot_send_response epMax s .data .download msg false false =
      ({ s with tx_buffer := buildFrame .data msg, rx_state := .download, tx_state := .sendResponse },
       [.displayProgress,
        .armRxDownload s.download_head
          (min (s.download_size - s.download_head) epMax),
        .armTx (buildFrame .data msg)]) := by
  unfold fastboot_send_response fastboot_send_response_with
    fastboot_rx_enter_download fastboot_tx_enter_send_response
  dsimp only
  rw [if_pos hd]
  rfl

theorem cstr_append_of_ne_zero (A B : List Nat) (h : ∀ b ∈ A, b ≠ 0) :
    cstr (A ++ B) = A ++ cstr B := by
  induction A with
  | nil => simp
  | cons a A ih =>
    have ha : a ≠ 0 := h a (List.mem_cons_self a A)
    have hA : ∀ b ∈ A, b ≠ 0 := fun b hb => h b (List.mem_cons_of_mem a hb)
    simp only [cstr, List.cons_append]
    rw [List.takeWhile_cons_of_pos (by simpa using ha)]
    have h2 := ih hA
    simp only [cstr] at h2
    rw [h2]

theorem cstr_of_ne_zero (A : List Nat) (h : ∀ b ∈ A, b ≠ 0) :
    cstr A = A := by
  have := cstr_append_of_ne_zero A [] h
  simpa [cstr] using this

theorem hexCharVal_bounds (c d : Nat) (h : hexCharVal c = some d) :
    d < 16 ∧ c ≠ 0 := by
  unfold hexCharVal at h
  split_ifs at h with h1 h2 h3 <;> injection h with h4 <;> omega

theorem parseHexWindow_all_hex (buf : List Nat) :
    ∀ (fuel i acc v : Nat), parseHexWindow buf i fuel acc = some v →
      ∀ j < fuel, hexCharVal (buf.getD (i + j) 0) ≠ none := by
  intro fuel
  induction fuel with
  | zero => intro i acc v _ j hj; omega
  | succ n ih =>
    intro i acc v h j hj
    unfold parseHexWindow at h
    cases hc : hexCharVal (buf.getD i 0) with
    | none => rw [hc] at h; cases h
    | some d =>
      rw [hc] at h
      cases j with
      | zero =>
        have hi : i + 0 = i := rfl
        rw [hi, hc]
        simp
      | succ k =>
        have := ih (i + 1) (acc * 16 % 2 ^ 32 + d) v h k (by omega)
        have harith : i + 1 + k = i + (k + 1) := by omega
        rw [harith] at this
        exact this

theorem parseHexWindow_lt (buf : List Nat) :
    ∀ (fuel i acc v : Nat), acc < 2 ^ 32 →
      parseHexWindow buf i fuel acc = some v → v < 2 ^ 32 := by
  intro fuel
  induction fuel with
  | zero =>
    intro i acc v hacc h
    unfold parseHexWindow at h
    injection h with h2
    omega
  | succ n ih =>
    intro i acc v hacc h
    unfold parseHexWindow at h
    cases hc : hexCharVal (buf.getD i 0) with
    | none => rw [hc] at h; cases h
    | some d =>
      rw [hc] at h
      have hd : d < 16 := (hexCharVal_bounds _ _ hc).1
      have h16 : (16 : Nat) ∣ acc * 16 % 2 ^ 32 :=
        (Nat.dvd_mod_iff (by norm_num)).2 ⟨acc, Nat.mul_comm acc 16⟩
      have hm : acc * 16 % 2 ^ 32 < 2 ^ 32 := Nat.mod_lt _ (by norm_num)
      exact ih (i + 1) (acc * 16 % 2 ^ 32 + d) v (by omega) h

theorem parseHexWindow_none_of_non_hex (buf : List Nat)
    (h : ∃ j < 8, hexCharVal (buf.getD (9 + j) 0) = none) :
    parseHexWindow buf 9 8 0 = none := by
  obtain ⟨j, hj, hnone⟩ := h
  cases hp : parseHexWindow buf 9 8 0 with
  | none => rfl
  | some v =>
    exact absurd hnone (parseHexWindow_all_hex buf 8 9 0 v hp j hj)

theorem handle_command_download_branch (cap epMax : Nat) (s : Fastboot)
    (re te : Bool)
    (h9 : (cstr s.rx_buffer).take 9 = strBytes "download:") :
    fastboot_handle_command cap epMax s re te =
      (let k :=
        match parseHexWindow s.rx_buffer 9 8 0 with
        | none =>
            fastboot_send_response epMax s .fail .normal
              (strBytes "failed to parse size") re te
        | some dl =>
            if dl > cap then
              fastboot_send_response epMax s .fail .normal
                (strBytes "download size too large") re te
            else
              fastboot_send_response epMax
                { s with download_head := 0, download_amount := 0, download_size := dl }
                .data .download (hex8 hexDigitLower dl) re te
      (k.1, .interpret :: k.2)) := by
  have h77 : ((cstr s.rx_buffer).take 9).take 7 = (cstr s.rx_buffer).take 7 := by
    rw [List.take_take]
    norm_num
  have h7 : ¬ (cstr s.rx_buffer).take 7 = strBytes "getvar:" := by
    rw [← h77, h9]
    decide
  have hrb : ¬ cstr s.rx_buffer = strBytes "reboot-bootloader" := by
    intro he
    rw [he] at h9
    exact absurd h9 (by decide)
  simp only [fastboot_handle_command]
  rw [if_neg h7, if_neg hrb, if_pos h9]

theorem handle_download_parse_fail (cap epMax : Nat) (s : Fastboot)
    (h9 : (cstr s.rx_buffer).take 9 = strBytes "download:")
    (hp : parseHexWindow s.rx_buffer 9 8 0 = none) :
    fastboot_handle_command cap epMax s false false =
      ({ s with tx_buffer := buildFrame .fail (strBytes "failed to parse size"), rx_state := .command, tx_state := .sendResponse },
       [.interpret, .armRxCommand,
        .armTx (buildFrame .fail (strBytes "failed to parse size"))]) := by
  rw [handle_command_download_branch cap epMax s false false h9, hp]
  rw [send_response_normal_eq]

theorem handle_download_too_large (cap epMax : Nat) (s : Fastboot) (S : Nat)
    (h9 : (cstr s.rx_buffer).take 9 = strBytes "download:")
    (hp : parseHexWindow s.rx_buffer 9 8 0 = some S) (hS : S > cap) :
    fastboot_handle_command cap epMax s false false =
      ({ s with tx_buffer := buildFrame .fail (strBytes "download size too large"), rx_state := .command, tx_state := .sendResponse },
       [.interpret, .armRxCommand,
        .armTx (buildFrame .fail (strBytes "download size too large"))]) := by
  rw [handle_command_download_branch cap epMax s false false h9, hp]
  dsimp only
  rw [if_pos hS, send_response_normal_eq]

theorem handle_download_ok (cap epMax : Nat) (s : Fastboot) (S : Nat)
    (h9 : (cstr s.rx_buffer).take 9 = strBytes "download:")
    (hp : parseHexWindow s.rx_buffer 9 8 0 = some S) (hS : ¬ S > cap)
    (hpos : 0 < S) :
    fastboot_handle_command cap epMax s false false =
      ({ s with download_head := 0, download_amount := 0, download_size := S, tx_buffer := buildFrame .data (hex8 hexDigitLower S), rx_state := .download, tx_state := .sendResponse },
       [.interpret, .displayProgress, .armRxDownload 0 (min S epMax),
        .armTx (buildFrame .data (hex8 hexDigitLower S))]) := by
  rw [handle_command_download_branch cap epMax s false false h9, hp]
  dsimp only
  rw [if_neg hS, send_response_download_eq]
  · rfl
  · exact hpos

/-! ### C5: malformed download commands answered by FAIL, state untouched -/

theorem armTxFrames_interp_cmd (f : List Nat) :
    armTxFrames [.interpret, .armRxCommand, .armTx f] = [f] := rfl

/-- C5: a `download:` line with a non-hex byte in the 8-byte window is
answered exactly `FAILfailed to parse size`, and a parsed size above the
capacity is answered exactly `FAILdownload size too large`; in both cases
`download_head`/`download_size` and the status are unchanged and the
`Command` read is re-armed, so the session keeps serving commands. -/
theorem C5_malformed_download :
    (∀ cap epMax s,
      (cstr s.rx_buffer).take 9 = strBytes "download:" →
      (∃ j, j < 8 ∧ hexCharVal (s.rx_buffer.getD (9 + j) 0) = none) →
      armTxFrames (fastboot_handle_command cap epMax s false false).2 =
        [strBytes "FAILfailed to parse size"] ∧
      (fastboot_handle_command cap epMax s false false).1.download_head =
        s.download_head ∧
      (fastboot_handle_command cap epMax s false false).1.download_size =
        s.download_size ∧
      (fastboot_handle_command cap epMax s false false).1.status = s.status ∧
      (fastboot_handle_command cap epMax s false false).1.rx_state =
        .command) ∧
    (∀ cap epMax s S,
      (cstr s.rx_buffer).take 9 = strBytes "download:" →
      parseHexWindow s.rx_buffer 9 8 0 = some S →
      S > cap →
      armTxFrames (fastboot_handle_command cap epMax s false false).2 =
        [strBytes "FAILdownload size too large"] ∧
      (fastboot_handle_command cap epMax s false false).1.download_head =
        s.download_head ∧
      (fastboot_handle_command cap epMax s false false).1.download_size =
        s.download_size ∧
      (fastboot_handle_command cap epMax s false false).1.status = s.status ∧
      (fastboot_handle_command cap epMax s false false).1.rx_state =
        .command) := by
  refine ⟨?_, ?_⟩
  · intro cap epMax s h9 hex
    rw [handle_download_parse_fail cap epMax s h9
      (parseHexWindow_none_of_non_hex _ hex)]
    exact ⟨by rw [armTxFrames_interp_cmd]; decide, rfl, rfl, rfl, rfl⟩
  · intro cap epMax s S h9 hp hS
    rw [handle_download_too_large cap epMax s S h9 hp hS]
    exact ⟨by rw [armTxFrames_interp_cmd]; decide, rfl, rfl, rfl, rfl⟩

/-- A concrete short download command: `download:12` (length 11). -/
def shortDownloadState : Fastboot := { initialFastboot with rx_buffer := strBytes "download:12", rx_length := 11, rx_state := .idle, tx_state := .idle }

/-- A concrete oversized download command: `download:ffffffff`. -/
def bigDownloadState : Fastboot := { initialFastboot with rx_buffer := strBytes "download:ffffffff", rx_length := 17, rx_state := .idle, tx_state := .idle }

/-- Witness for C5 at concrete inputs: the 11-byte line `download:12`
(non-hex NUL inside the window) and `download:ffffffff` against capacity
255. -/
theorem C5_malformed_download_witness :
    (armTxFrames (fastboot_handle_command 255 512 shortDownloadState
        false false).2 = [strBytes "FAILfailed to parse size"] ∧
      (fastboot_handle_command 255 512 shortDownloadState
        false false).1.download_head = shortDownloadState.download_head ∧
      (fastboot_handle_command 255 512 shortDownloadState
        false false).1.download_size = shortDownloadState.download_size ∧
      (fastboot_handle_command 255 512 shortDownloadState
        false false).1.status = shortDownloadState.status ∧
      (fastboot_handle_command 255 512 shortDownloadState
        false false).1.rx_state = .command) ∧
    (armTxFrames (fastboot_handle_command 255 512 bigDownloadState
        false false).2 = [strBytes "FAILdownload size too large"] ∧
      (fastboot_handle_command 255 512 bigDownloadState
        false false).1.download_head = bigDownloadState.download_head ∧
      (fastboot_handle_command 255 512 bigDownloadState
        false false).1.download_size = bigDownloadState.download_size ∧
      (fastboot_handle_command 255 512 bigDownloadState
        false false).1.status = bigDownloadState.status ∧
      (fastboot_handle_command 255 512 bigDownloadState
        false false).1.rx_state = .command) := by
  refine ⟨?_, ?_⟩
  · exact C5_malformed_download.1 255 512 shortDownloadState (by decide)
      ⟨2, by decide⟩
  · exact C5_malformed_download.2 255 512 bigDownloadState 4294967295
      (by decide) (by decide) (by decide)

/-! ### C8: unknown commands -/

theorem unknown_frame_eq (L : List Nat) :
    buildFrame .fail ((strBytes "unknown command: " ++ L.take 44).take 60) =
      strBytes "FAILunknown command: " ++ L.take 43 := by
  have h1 : (strBytes "unknown command: " ++ L.take 44).take 60 =
      strBytes "unknown command: " ++ L.take 43 := by
    rw [List.take_append_eq_append_take]
    rw [List.take_of_length_le (by decide)]
    have : (60 : Nat) - (strBytes "unknown command: ").length = 43 := by decide
    rw [this, List.take_take]
    norm_num
  rw [h1]
  unfold buildFrame
  rw [List.take_of_length_le]
  · rw [← List.append_assoc]
    rfl
  · have hlen : (L.take 43).length ≤ 43 := by
      rw [List.length_take]
      omega
    rw [List.length_append]
    have : (strBytes "unknown command: ").length = 17 := by decide
    omega

/-- C8: a command line matching no known command is answered by `FAIL`,
`unknown command: ` and the offending line, truncated so that the total
transmitted frame is at most 64 bytes (at most 60 message bytes). -/
theorem C8_unknown_command (cap epMax : Nat) (s : Fastboot)
    (h7 : (cstr s.rx_buffer).take 7 ≠ strBytes "getvar:")
    (hrb : cstr s.rx_buffer ≠ strBytes "reboot-bootloader")
    (h9 : (cstr s.rx_buffer).take 9 ≠ strBytes "download:") :
    (fastboot_handle_command cap epMax s false false).1.tx_buffer =
      strBytes "FAILunknown command: " ++ (cstr s.rx_buffer).take 43 ∧
    (fastboot_handle_command cap epMax s false false).1.tx_buffer.length
      ≤ 64 ∧
    armTxFrames (fastboot_handle_command cap epMax s false false).2 =
      [strBytes "FAILunknown command: " ++ (cstr s.rx_buffer).take 43] ∧
    (fastboot_handle_command cap epMax s false false).1.rx_state =
      .command := by
  have hmain : fastboot_handle_command cap epMax s false false =
      ({ s with tx_buffer := strBytes "FAILunknown command: " ++ (cstr s.rx_buffer).take 43, rx_state := .command, tx_state := .sendResponse },
       [.interpret, .armRxCommand,
        .armTx (strBytes "FAILunknown command: " ++
          (cstr s.rx_buffer).take 43)]) := by
    simp only [fastboot_handle_command]
    rw [if_neg h7, if_neg hrb, if_neg h9, send_response_normal_eq,
      unknown_frame_eq]
  rw [hmain]
  refine ⟨rfl, ?_, rfl, rfl⟩
  rw [List.length_append]
  have h43 : ((cstr s.rx_buffer).take 43).length ≤ 43 := by
    rw [List.length_take]
    omega
  have : (strBytes "FAILunknown command: ").length = 21 := by decide
  omega

/-- A concrete unrecognized command line. -/
def unknownCmdState : Fastboot := { initialFastboot with rx_buffer := strBytes "flash:boot", rx_length := 10, rx_state := .idle, tx_state := .idle }

/-- Witness for C8 at the concrete unknown command `flash:boot`. -/
theorem C8_unknown_command_witness :
    (fastboot_handle_command 134217728 512 unknownCmdState
        false false).1.tx_buffer =
      strBytes "FAILunknown command: " ++
        (cstr unknownCmdState.rx_buffer).take 43 ∧
    (fastboot_handle_command 134217728 512 unknownCmdState
        false false).1.tx_buffer.length ≤ 64 ∧
    armTxFrames (fastboot_handle_command 134217728 512 unknownCmdState
        false false).2 =
      [strBytes "FAILunknown command: " ++
        (cstr unknownCmdState.rx_buffer).take 43] ∧
    (fastboot_handle_command 134217728 512 unknownCmdState
        false false).1.rx_state = .command :=
  C8_unknown_command 134217728 512 unknownCmdState (by decide) (by decide)
    (by decide)

/-! ### C9: short download lines -/

theorem set_getD_self (l : List Nat) (n : Nat) :
    (l.set n 0).getD n 0 = 0 := by
  rcases Nat.lt_or_ge n l.length with h | h
  · rw [List.getD_eq_getElem _ _ (by rw [List.length_set]; exact h)]
    exact List.getElem_set_self ..
  · exact List.getD_eq_default _ _ (by rw [List.length_set]; exact h)

/-- A transport oracle delivering one completed command read of `n` bytes
with payload `data`. -/
def cmdInput (n : Nat) (data : List Nat) : TickInput :=
  { ep0_reset := false
    suspended := false
    rx_poll := .ok n
    rx_data := data
    tx_poll := .pending
    rx_arm_err := false
    tx_arm_err := false }

/-- The session state after receiving a 20-byte command and then an 11-byte
`download:12` command: the bytes of the longer first line survive beyond
the second line's terminator. -/
def staleState : Fastboot :=
  ((fastboot_rx_state_command
    { (fastboot_rx_state_command
        { initialFastboot with rx_state := .command }
        (cmdInput 20 (strBytes "getvar:version-junkA"))).1 with
      rx_state := RxState.command }
    (cmdInput 11 (strBytes "download:12")))).1

/-- C9 counterexample: the receive buffer is NOT zero-filled beyond its
used length — after a 20-byte command followed by an 11-byte
`download:12`, the used length is 11 but byte 12 still holds the stale
byte `111` from the earlier command. -/
theorem C9_counterexample :
    staleState.rx_length = 11 ∧
    staleState.rx_buffer.getD 12 0 = 111 ∧ (111 : Nat) ≠ 0 ∧
    11 < 12 := by decide

/-- C9 (amended): the receive path NUL-terminates the buffer at the used
length `rx_length` (bytes past it may be stale); because the `download:`
parse loop scans the window left to right, a command line beginning with
`download:` but shorter than 17 bytes hits that terminator inside the
8-digit window and is answered exactly `FAILfailed to parse size`, with
the download state untouched — stale bytes beyond the terminator are
never interpreted as size digits (the buffer beyond index 9 is fully
arbitrary in this statement). -/
theorem C9_short_download_line :
    (∀ s inp n, inp.rx_poll = .ok n →
      (fastboot_rx_state_command s inp).1.rx_length = n ∧
      (fastboot_rx_state_command s inp).1.rx_buffer.getD n 0 = 0 ∧
      (fastboot_rx_state_command s inp).1.rx_state = .waitingTxForProcess) ∧
    (∀ cap epMax s,
      s.rx_buffer.take 9 = strBytes "download:" →
      9 ≤ s.rx_length → s.rx_length < 17 →
      s.rx_buffer.getD s.rx_length 0 = 0 →
      armTxFrames (fastboot_handle_command cap epMax s false false).2 =
        [strBytes "FAILfailed to parse size"] ∧
      (fastboot_handle_command cap epMax s false false).1.download_head =
        s.download_head ∧
      (fastboot_handle_command cap epMax s false false).1.download_size =
        s.download_size ∧
      (fastboot_handle_command cap epMax s false false).1.rx_state =
        .command) := by
  refine ⟨?_, ?_⟩
  · intro s inp n hp
    unfold fastboot_rx_state_command
    rw [hp]
    dsimp only [fastboot_rx_enter_waiting_tx_for_process]
    exact ⟨rfl, set_getD_self _ _, rfl⟩
  · intro cap epMax s h9raw hge hlt hzero
    have hA : ∀ b ∈ strBytes "download:", b ≠ 0 := by decide
    have hsplit : s.rx_buffer = strBytes "download:" ++ s.rx_buffer.drop 9 := by
      conv_lhs => rw [← List.take_append_drop 9 s.rx_buffer]
      rw [h9raw]
    have hc : cstr s.rx_buffer =
        strBytes "download:" ++ cstr (s.rx_buffer.drop 9) := by
      conv_lhs => rw [hsplit]
      exact cstr_append_of_ne_zero _ _ hA
    have h9 : (cstr s.rx_buffer).take 9 = strBytes "download:" := by
      rw [hc]
      exact List.take_left' (by decide)
    have hp : parseHexWindow s.rx_buffer 9 8 0 = none := by
      cases hq : parseHexWindow s.rx_buffer 9 8 0 with
      | none => rfl
      | some v =>
        have hall := parseHexWindow_all_hex _ 8 9 0 v hq (s.rx_length - 9)
          (by omega)
        have h99 : 9 + (s.rx_length - 9) = s.rx_length := by omega
        rw [h99, hzero] at hall
        exact absurd (by decide : hexCharVal 0 = none) hall
    rw [handle_download_parse_fail cap epMax s h9 hp]
    exact ⟨by rw [armTxFrames_interp_cmd]; decide, rfl, rfl, rfl⟩

/-- Witness for C9 at concrete inputs: a completed 11-byte read, and the
11-byte line `download:12`. -/
theorem C9_short_download_line_witness :
    ((fastboot_rx_state_command initialFastboot
        (cmdInput 11 (strBytes "download:12"))).1.rx_length = 11 ∧
      (fastboot_rx_state_command initialFastboot
        (cmdInput 11 (strBytes "download:12"))).1.rx_buffer.getD 11 0 = 0 ∧
      (fastboot_rx_state_command initialFastboot
        (cmdInput 11 (strBytes "download:12"))).1.rx_state =
        .waitingTxForProcess) ∧
    (armTxFrames (fastboot_handle_command 255 512 shortDownloadState
        false false).2 = [strBytes "FAILfailed to parse size"] ∧
      (fastboot_handle_command 255 512 shortDownloadState
        false false).1.download_head = shortDownloadState.download_head ∧
      (fastboot_handle_command 255 512 shortDownloadState
        false false).1.download_size = shortDownloadState.download_size ∧
      (fastboot_handle_command 255 512 shortDownloadState
        false false).1.rx_state = .command) := by
  refine ⟨?_, ?_⟩
  · exact C9_short_download_line.1 initialFastboot
      (cmdInput 11 (strBytes "download:12")) 11 rfl
  · exact C9_short_download_line.2 255 512 shortDownloadState (by decide)
      (by decide) (by decide) (by decide)

/-! ### C2: the download flow -/

theorem send_okay_gotit_eq (s : Fastboot) :
    fastboot_send_response_with s .okay (strBytes "got it!")
      (fun t2 => fastboot_rx_enter_command t2 false) false =
      ({ s with tx_buffer := strBytes "OKAYgot it!", rx_state := .command, tx_state := .sendResponse },
       [.armRxCommand, .armTx (strBytes "OKAYgot it!")]) := rfl

theorem armTxFrames_append (t1 t2 : List Event) :
    armTxFrames (t1 ++ t2) = armTxFrames t1 ++ armTxFrames t2 :=
  List.filterMap_append t1 t2 _

theorem armTxFrames_progress (h l : Nat) :
    armTxFrames [Event.displayProgress, Event.armRxDownload h l] = [] := rfl

/-- Completion of the download phase: starting in the `Download` state,
delivering chunk sizes `amounts` whose strict prefixes stay below the
remaining size and whose total exactly reaches `download_size` ends with
`tight_turnaround` cleared, the `Command` read re-armed, and exactly one
armed TX write, carrying `OKAYgot it!`. -/
theorem download_deliver_completes (epMax : Nat) :
    ∀ (amounts : List Nat) (s : Fastboot),
      s.rx_state = .download →
      s.download_size < 2 ^ 32 →
      s.download_head + amounts.sum = s.download_size →
      (∀ k, k + 1 < amounts.length →
        s.download_head + (amounts.take (k + 1)).sum < s.download_size) →
      amounts ≠ [] →
      (fastboot_download_deliver epMax s amounts).1.rx_state = .command ∧
      (fastboot_download_deliver epMax s amounts).1.tight_turnaround =
        false ∧
      (fastboot_download_deliver epMax s amounts).1.download_head =
        s.download_size ∧
      armTxFrames (fastboot_download_deliver epMax s amounts).2 =
        [strBytes "OKAYgot it!"] := by
  intro amounts
  induction amounts with
  | nil =>
    intro s _ _ _ _ hne
    exact absurd rfl hne
  | cons a rest ih =>
    intro s hrx hsize hsum hpre _
    unfold fastboot_download_deliver
    rw [if_pos hrx]
    unfold fastboot_rx_state_download deliverInput
    dsimp only
    by_cases hrest : rest = []
    · subst hrest
      have hha : s.download_head + a = s.download_size := by
        simpa using hsum
      have hmod : (s.download_head + a) % 2 ^ 32 = s.download_size := by
        rw [hha]
        exact Nat.mod_eq_of_lt hsize
      rw [hmod]
      unfold fastboot_rx_enter_download
      dsimp only
      rw [if_neg (lt_irrefl s.download_size), send_okay_gotit_eq]
      unfold fastboot_download_deliver
      exact ⟨rfl, rfl, rfl, rfl⟩
    · have hlen1 : 0 + 1 < (a :: rest).length := by
        cases rest with
        | nil => exact absurd rfl hrest
        | cons b r2 => simp
      have hlt : s.download_head + a < s.download_size := by
        have := hpre 0 hlen1
        simpa using this
      have hmod : (s.download_head + a) % 2 ^ 32 = s.download_head + a :=
        Nat.mod_eq_of_lt (by omega)
      rw [hmod]
      unfold fastboot_rx_enter_download
      dsimp only
      rw [if_pos hlt]
      have hih := ih { s with download_amount := a, download_head := s.download_head + a, rx_state := RxState.download }
        rfl hsize
        (by
          dsimp only
          have : a + rest.sum = (a :: rest).sum := by simp
          omega)
        (by
          dsimp only
          intro k hk
          have := hpre (k + 1) (by simpa using Nat.succ_lt_succ hk)
          have htake : (a :: rest).take (k + 1 + 1) = a :: rest.take (k + 1) := rfl
          rw [htake] at this
          simp only [List.sum_cons] at this
          omega)
        hrest
      refine ⟨hih.1, hih.2.1, hih.2.2.1, ?_⟩
      rw [armTxFrames_append, armTxFrames_progress, List.nil_append]
      exact hih.2.2.2

theorem hex8_length (digit : Nat → Nat) (v : Nat) :
    (hex8 digit v).length = 8 := by
  simp [hex8]

theorem buildFrame_data_hex8 (S : Nat) :
    buildFrame .data (hex8 hexDigitLower S) =
      strBytes "DATA" ++ hex8 hexDigitLower S := by
  unfold buildFrame
  rw [List.take_of_length_le (by rw [hex8_length]; omega)]
  rfl

theorem armTxFrames_interp_download (h l : Nat) (f : List Nat) :
    armTxFrames [.interpret, .displayProgress, .armRxDownload h l,
      .armTx f] = [f] := rfl

/-- C2 counterexample: the claim fails at the download size `S = 0` (which
satisfies `S ≤ C`): `download:00000000` parses to size `0`, but the armed
responses are `OKAYgot it!` (twice — the inner completion response
overwrites the `DATA` frame before it is ever armed), and the frame
`DATA00000000` is never armed at all. -/
theorem C2_counterexample :
    parseHexWindow (strBytes "download:00000000") 9 8 0 = some 0 ∧
    (0 : Nat) ≤ 134217728 ∧
    armTxFrames (fastboot_handle_command 134217728 512 { initialFastboot with rx_buffer := strBytes "download:00000000", rx_length := 17, rx_state := .idle, tx_state := .idle } false false).2 =
      [strBytes "OKAYgot it!", strBytes "OKAYgot it!"] ∧
    Event.armTx (strBytes "DATA" ++ hex8 hexDigitLower 0) ∉
      (fastboot_handle_command 134217728 512 { initialFastboot with rx_buffer := strBytes "download:00000000", rx_length := 17, rx_state := .idle, tx_state := .idle } false false).2 := by
  decide

/-- C2 (amended to positive sizes): for every download size `0 < S ≤ C`,
receiving `download:` followed by 8 hex digits that parse to `S` resets
`download_head` to 0, `download_amount` to 0 and `download_size` to `S`,
arms exactly one response, `DATA` followed by the 8 lowercase hex digits
of `S`, and enters the `Download` state; after exactly `S` payload bytes
have been delivered, the next (and only further) armed response is exactly
`OKAYgot it!`. -/
theorem C2_download_flow (cap epMax : Nat) (s : Fastboot) (w : List Nat)
    (S : Nat) (hbuf : s.rx_buffer = strBytes "download:" ++ w)
    (hw : w.length = 8)
    (hp : parseHexWindow s.rx_buffer 9 8 0 = some S)
    (hpos : 0 < S) (hcap : S ≤ cap) :
    (fastboot_handle_command cap epMax s false false).1.download_head = 0 ∧
    (fastboot_handle_command cap epMax s false false).1.download_amount
      = 0 ∧
    (fastboot_handle_command cap epMax s false false).1.download_size = S ∧
    (fastboot_handle_command cap epMax s false false).1.rx_state =
      .download ∧
    armTxFrames (fastboot_handle_command cap epMax s false false).2 =
      [strBytes "DATA" ++ hex8 hexDigitLower S] ∧
    (∀ amounts : List Nat, amounts ≠ [] → amounts.sum = S →
      (∀ k, k + 1 < amounts.length → (amounts.take (k + 1)).sum < S) →
      armTxFrames (fastboot_download_deliver epMax
          (fastboot_handle_command cap epMax s false false).1 amounts).2 =
        [strBytes "OKAYgot it!"] ∧
      (fastboot_download_deliver epMax
          (fastboot_handle_command cap epMax s false false).1
          amounts).1.download_head = S ∧
      (fastboot_download_deliver epMax
          (fastboot_handle_command cap epMax s false false).1
          amounts).1.rx_state = .command) := by
  have hall := parseHexWindow_all_hex s.rx_buffer 8 9 0 S hp
  have hwne : ∀ b ∈ w, b ≠ 0 := by
    intro b hb
    obtain ⟨j, hj, hbj⟩ := List.mem_iff_getElem.1 hb
    have h9l : (strBytes "download:").length = 9 := by decide
    have hgd : s.rx_buffer.getD (9 + j) 0 = b := by
      rw [hbuf, List.getD_append_right _ _ _ _ (by rw [h9l]; omega), h9l]
      have hj9 : 9 + j - 9 = j := by omega
      rw [hj9, List.getD_eq_getElem _ _ hj, hbj]
    have hj8 : j < 8 := by omega
    have := hall j hj8
    rw [hgd] at this
    cases hv : hexCharVal b with
    | none => exact absurd hv this
    | some d => exact (hexCharVal_bounds _ _ hv).2
  have h9 : (cstr s.rx_buffer).take 9 = strBytes "download:" := by
    rw [hbuf, cstr_append_of_ne_zero _ _ (by decide), cstr_of_ne_zero _ hwne]
    exact List.take_left' (by decide)
  have hS32 : S < 2 ^ 32 :=
    parseHexWindow_lt s.rx_buffer 8 9 0 S (by norm_num) hp
  rw [handle_download_ok cap epMax s S h9 hp (by omega) hpos]
  refine ⟨rfl, rfl, rfl, rfl, ?_, ?_⟩
  · rw [armTxFrames_interp_download, buildFrame_data_hex8]
  · intro amounts hne hsum hpre
    have hdel := download_deliver_completes epMax amounts
      { s with download_head := 0, download_amount := 0, download_size := S, tx_buffer := buildFrame .data (hex8 hexDigitLower S), rx_state := .download, tx_state := .sendResponse }
      rfl hS32 (by dsimp only; omega)
      (by
        dsimp only
        intro k hk
        have := hpre k hk
        omega)
      hne
    exact ⟨hdel.2.2.2, hdel.2.2.1, hdel.1⟩

/-- The state holding the completed command line `download:00000010`. -/
def sixteenDownloadState : Fastboot := { initialFastboot with rx_buffer := strBytes "download:00000010", rx_length := 17, rx_state := .idle, tx_state := .idle }

/-- Witness for C2 at the concrete size `S = 16` (`download:00000010`),
delivered as two chunks of 10 and 6 bytes. -/
theorem C2_download_flow_witness :
    (fastboot_handle_command 134217728 512 sixteenDownloadState
        false false).1.download_size = 16 ∧
    armTxFrames (fastboot_handle_command 134217728 512 sixteenDownloadState
        false false).2 = [strBytes "DATA" ++ hex8 hexDigitLower 16] ∧
    armTxFrames (fastboot_download_deliver 512
        (fastboot_handle_command 134217728 512 sixteenDownloadState
          false false).1 [10, 6]).2 = [strBytes "OKAYgot it!"] ∧
    (fastboot_download_deliver 512
        (fastboot_handle_command 134217728 512 sixteenDownloadState
          false false).1 [10, 6]).1.download_head = 16 := by
  have h := C2_download_flow 134217728 512 sixteenDownloadState
    (strBytes "00000010") 16 (by decide) (by decide) (by decide)
    (by decide) (by decide)
  have hdel := h.2.2.2.2.2 [10, 6] (by decide) (by decide)
    (by
      intro k hk
      have hk0 : k = 0 := by
        simp at hk
        omega
      subst hk0
      decide)
  exact ⟨h.2.2.1, h.2.2.2.2.1, hdel.1, hdel.2.1⟩

/-! ### C7: the tight_turnaround flag -/

theorem flag_rx_enter_command (s : Fastboot) (e : Bool) :
    (fastboot_rx_enter_command s e).1.tight_turnaround =
      s.tight_turnaround := by
  cases e <;>
    simp [fastboot_rx_enter_command, set_status_tight_turnaround]

theorem flag_tx_enter_send_response (s : Fastboot) (e : Bool) :
    (fastboot_tx_enter_send_response s e).1.tight_turnaround =
      s.tight_turnaround := by
  cases e <;>
    simp [fastboot_tx_enter_send_response, set_status_tight_turnaround]

theorem flag_send_response_with (s : Fastboot) (t : ResponseType)
    (msg : List Nat) (rx_arm : Fastboot → Fastboot × List Event)
    (te : Bool) :
    (fastboot_send_response_with s t msg rx_arm te).1.tight_turnaround =
      (rx_arm { s with tx_buffer := buildFrame t msg }).1.tight_turnaround := by
  unfold fastboot_send_response_with
  dsimp only
  rw [flag_tx_enter_send_response]

theorem flag_rx_enter_download (epMax : Nat) (s : Fastboot) (e1 e2 : Bool)
    (h : (fastboot_rx_enter_download epMax s e1 e2).1.tight_turnaround =
      true) : s.tight_turnaround = true := by
  unfold fastboot_rx_enter_download at h
  split at h
  · cases e1 <;> simpa [set_status_tight_turnaround] using h
  · rw [flag_send_response_with, flag_rx_enter_command] at h
    simp at h

theorem flag_send_response (epMax : Nat) (s : Fastboot) (t : ResponseType)
    (d : Disposition) (msg : List Nat) (re te : Bool)
    (h : (fastboot_send_response epMax s t d msg re te).1.tight_turnaround =
      true) : s.tight_turnaround = true := by
  unfold fastboot_send_response at h
  rw [flag_send_response_with] at h
  cases d <;> dsimp only at h
  · rw [flag_rx_enter_command] at h
    exact h
  · have h2 := flag_rx_enter_download _ _ _ _ h
    exact h2
  · exact h

set_option maxHeartbeats 1000000 in
theorem flag_handle_command (cap epMax : Nat) (s : Fastboot) (re te : Bool)
    (h : (fastboot_handle_command cap epMax s re te).1.tight_turnaround =
      true) : s.tight_turnaround = true := by
  simp only [fastboot_handle_command] at h
  repeat' split at h
  all_goals
    first
    | (have h2 := flag_send_response _ _ _ _ _ _ _ h
       exact h2)

theorem flag_rx_dispatch (cap epMax : Nat) (s : Fastboot) (inp : TickInput)
    (h : (fastboot_rx_dispatch cap epMax s inp).1.tight_turnaround = true) :
    s.tight_turnaround = true := by
  obtain ⟨st, rxs, txs, fl, rb, rl, dh, ds, da, tb, tl⟩ := s
  obtain ⟨e0, su, rp, rd, tp, rae, tae⟩ := inp
  cases rxs <;> unfold fastboot_rx_dispatch at h <;> dsimp only at h
  · rwa [set_status_tight_turnaround] at h
  · exact h
  · unfold fastboot_rx_state_command at h
    cases rp <;> dsimp only at h
    · exact h
    · exact h
    · rwa [set_status_tight_turnaround] at h
  · unfold fastboot_rx_state_download at h
    cases rp <;> dsimp only at h
    · exact h
    · have h2 := flag_rx_enter_download _ _ _ _ h
      exact h2
    · rwa [set_status_tight_turnaround] at h
  · unfold fastboot_rx_state_waiting_tx_for_process at h
    split at h
    · have h2 := flag_handle_command _ _ _ _ _ h
      exact h2
    · exact h
  · unfold fastboot_rx_state_waiting_tx_for_reboot_bootloader at h
    split at h
    · rwa [set_status_tight_turnaround] at h
    · exact h

theorem flag_tx_dispatch (s : Fastboot) (inp : TickInput) :
    (fastboot_tx_dispatch s inp).1.tight_turnaround =
      s.tight_turnaround := by
  obtain ⟨st, rxs, txs, fl, rb, rl, dh, ds, da, tb, tl⟩ := s
  obtain ⟨e0, su, rp, rd, tp, rae, tae⟩ := inp
  cases txs <;> cases tp <;>
    simp [fastboot_tx_dispatch, fastboot_tx_state_send_response,
      fastboot_tx_enter_idle, set_status_tight_turnaround]

theorem flag_tick (cap epMax : Nat) (s : Fastboot) (inp : TickInput)
    (h : (fastboot_tick cap epMax s inp).1.tight_turnaround = true) :
    s.tight_turnaround = true := by
  unfold fastboot_tick at h
  dsimp only at h
  split at h
  · exact h
  · rw [flag_tx_dispatch] at h
    have h2 := flag_rx_dispatch _ _ _ _ h
    cases he : inp.ep0_reset <;> rw [he] at h2
    · simpa using h2
    · rw [if_pos rfl, set_status_tight_turnaround] at h2
      exact h2

/-- C7 (against the code as written): no scheduling-loop tick ever raises
`tight_turnaround` — the flag is `false` in the zero-initialized session
and the only assignment to it in the whole driver writes `false` (the
clear in the download-completion branch), so it is still `false` even
while a multi-chunk download is in progress (here: right after
`download:00000010` has been accepted, with 16 bytes outstanding), and
the per-tick maintenance and status-display work is therefore never
actually suppressed. -/
theorem C7_tight_turnaround_never_set :
    (∀ cap epMax s inp,
      (fastboot_tick cap epMax s inp).1.tight_turnaround = true →
      s.tight_turnaround = true) ∧
    (initialFastboot.tight_turnaround = false ∧
     (fastboot_handle_command 134217728 512 sixteenDownloadState
        false false).1.rx_state = .download ∧
     (fastboot_handle_command 134217728 512 sixteenDownloadState
        false false).1.download_head <
       (fastboot_handle_command 134217728 512 sixteenDownloadState
        false false).1.download_size ∧
     (fastboot_handle_command 134217728 512 sixteenDownloadState
        false false).1.tight_turnaround = false) := by
  refine ⟨fun cap epMax s inp h => flag_tick cap epMax s inp h, ?_⟩
  decide

/-- Witness for C7: a tick from a state whose flag is already raised
keeps it raised, discharging the hypothesis of the invariant. -/
theorem C7_tight_turnaround_never_set_witness :
    ({ initialFastboot with tight_turnaround := true } : Fastboot).tight_turnaround = true :=
  C7_tight_turnaround_never_set.1 1 1
    { initialFastboot with tight_turnaround := true } (deliverInput 0)
    (by decide)

/-! ### C6: reboot-bootloader sequencing -/

theorem sr_rx_enter_command (s : Fastboot) (e : Bool)
    (hs : s.status ≠ .rebootBootloader) :
    (fastboot_rx_enter_command s e).1.status ≠ .rebootBootloader := by
  cases e <;> simp only [fastboot_rx_enter_command]
  · exact hs
  · exact set_status_status_ne_reboot _ _ (by simp) hs

theorem sr_tx_enter_send_response (s : Fastboot) (e : Bool)
    (hs : s.status ≠ .rebootBootloader) :
    (fastboot_tx_enter_send_response s e).1.status ≠ .rebootBootloader := by
  cases e <;> simp only [fastboot_tx_enter_send_response]
  · exact hs
  · exact set_status_status_ne_reboot _ _ (by simp) hs

theorem sr_send_response_with (s : Fastboot) (t : ResponseType)
    (msg : List Nat) (rx_arm : Fastboot → Fastboot × List Event) (te : Bool)
    (h : (rx_arm { s with tx_buffer := buildFrame t msg }).1.status ≠
      .rebootBootloader) :
    (fastboot_send_response_with s t msg rx_arm te).1.status ≠
      .rebootBootloader := by
  unfold fastboot_send_response_with
  dsimp only
  exact sr_tx_enter_send_response _ _ h

theorem sr_rx_enter_download (epMax : Nat) (s : Fastboot) (e1 e2 : Bool)
    (hs : s.status ≠ .rebootBootloader) :
    (fastboot_rx_enter_download epMax s e1 e2).1.status ≠
      .rebootBootloader := by
  unfold fastboot_rx_enter_download
  split
  · cases e1 <;> dsimp only
    · exact hs
    · exact set_status_status_ne_reboot _ _ (by simp) hs
  · exact sr_send_response_with _ _ _ _ _ (sr_rx_enter_command _ _ hs)

theorem sr_send_response (epMax : Nat) (s : Fastboot) (t : ResponseType)
    (d : Disposition) (msg : List Nat) (re te : Bool)
    (hs : s.status ≠ .rebootBootloader) :
    (fastboot_send_response epMax s t d msg re te).1.status ≠
      .rebootBootloader := by
  unfold fastboot_send_response
  apply sr_send_response_with
  cases d <;> dsimp only
  · exact sr_rx_enter_command _ _ hs
  · exact sr_rx_enter_download _ _ _ _ hs
  · exact hs

set_option maxHeartbeats 1000000 in
theorem sr_handle_command (cap epMax : Nat) (s : Fastboot) (re te : Bool)
    (hs : s.status ≠ .rebootBootloader) :
    (fastboot_handle_command cap epMax s re te).1.status ≠
      .rebootBootloader := by
  simp only [fastboot_handle_command]
  repeat' split
  all_goals
    exact sr_send_response _ _ _ _ _ _ _ hs

theorem sr_rx_dispatch (cap epMax : Nat) (s : Fastboot) (inp : TickInput)
    (hs : s.status ≠ .rebootBootloader)
    (hrx : s.rx_state ≠ .waitingTxForRebootBootloader) :
    (fastboot_rx_dispatch cap epMax s inp).1.status ≠
      .rebootBootloader := by
  obtain ⟨st, rxs, txs, fl, rb, rl, dh, ds, da, tb, tl⟩ := s
  obtain ⟨e0, su, rp, rd, tp, rae, tae⟩ := inp
  cases rxs <;> unfold fastboot_rx_dispatch <;> dsimp only
  · exact set_status_status_ne_reboot _ _ (by simp) hs
  · exact hs
  · unfold fastboot_rx_state_command
    cases rp <;> dsimp only
    · exact hs
    · exact hs
    · exact set_status_status_ne_reboot _ _ (by simp) hs
  · unfold fastboot_rx_state_download
    cases rp <;> dsimp only
    · exact hs
    · exact sr_rx_enter_download _ _ _ _ hs
    · exact set_status_status_ne_reboot _ _ (by simp) hs
  · unfold fastboot_rx_state_waiting_tx_for_process
    split
    · exact sr_handle_command _ _ _ _ _ hs
    · exact hs
  · exact absurd rfl hrx

theorem sr_tx_dispatch (s : Fastboot) (inp : TickInput)
    (hs : s.status ≠ .rebootBootloader) :
    (fastboot_tx_dispatch s inp).1.status ≠ .rebootBootloader := by
  obtain ⟨st, rxs, txs, fl, rb, rl, dh, ds, da, tb, tl⟩ := s
  obtain ⟨e0, su, rp, rd, tp, rae, tae⟩ := inp
  cases txs <;> unfold fastboot_tx_dispatch <;> dsimp only
  · exact set_status_status_ne_reboot _ _ (by simp) hs
  · exact hs
  · unfold fastboot_tx_state_send_response
    cases tp <;> dsimp only
    · exact hs
    · exact hs
    · exact set_status_status_ne_reboot _ _ (by simp) hs

theorem reload_notin_rx_enter_command (s : Fastboot) (e : Bool) :
    Event.reloadNyx ∉ (fastboot_rx_enter_command s e).2 := by
  simp [fastboot_rx_enter_command]

theorem reload_notin_tx_enter_send_response (s : Fastboot) (e : Bool) :
    Event.reloadNyx ∉ (fastboot_tx_enter_send_response s e).2 := by
  simp [fastboot_tx_enter_send_response]

theorem reload_notin_send_response_with (s : Fastboot) (t : ResponseType)
    (msg : List Nat) (rx_arm : Fastboot → Fastboot × List Event) (te : Bool)
    (h : Event.reloadNyx ∉
      (rx_arm { s with tx_buffer := buildFrame t msg }).2) :
    Event.reloadNyx ∉ (fastboot_send_response_with s t msg rx_arm te).2 := by
  simp only [fastboot_send_response_with, fastboot_tx_enter_send_response,
    List.mem_append]
  rintro (hc | hc)
  · exact h hc
  · simp at hc

theorem reload_notin_rx_enter_download (epMax : Nat) (s : Fastboot)
    (e1 e2 : Bool) :
    Event.reloadNyx ∉ (fastboot_rx_enter_download epMax s e1 e2).2 := by
  unfold fastboot_rx_enter_download
  split
  · simp
  · exact reload_notin_send_response_with _ _ _ _ _
      (reload_notin_rx_enter_command _ _)

theorem reload_notin_send_response (epMax : Nat) (s : Fastboot)
    (t : ResponseType) (d : Disposition) (msg : List Nat) (re te : Bool) :
    Event.reloadNyx ∉ (fastboot_send_response epMax s t d msg re te).2 := by
  unfold fastboot_send_response
  apply reload_notin_send_response_with
  cases d
  · exact reload_notin_rx_enter_command _ _
  · exact reload_notin_rx_enter_download _ _ _ _
  · simp

set_option maxHeartbeats 1000000 in
theorem reload_notin_handle_command (cap epMax : Nat) (s : Fastboot)
    (re te : Bool) :
    Event.reloadNyx ∉ (fastboot_handle_command cap epMax s re te).2 := by
  simp only [fastboot_handle_command, List.mem_cons, not_or]
  refine ⟨by simp, ?_⟩
  repeat' split
  all_goals exact reload_notin_send_response _ _ _ _ _ _ _

theorem reload_notin_rx_dispatch (cap epMax : Nat) (s : Fastboot)
    (inp : TickInput) :
    Event.reloadNyx ∉ (fastboot_rx_dispatch cap epMax s inp).2 := by
  obtain ⟨st, rxs, txs, fl, rb, rl, dh, ds, da, tb, tl⟩ := s
  obtain ⟨e0, su, rp, rd, tp, rae, tae⟩ := inp
  cases rxs <;> unfold fastboot_rx_dispatch <;> dsimp only
  · simp
  · simp [fastboot_rx_state_idle]
  · unfold fastboot_rx_state_command
    cases rp <;> simp
  · unfold fastboot_rx_state_download
    cases rp <;> dsimp only
    · simp
    · exact reload_notin_rx_enter_download _ _ _ _
    · simp
  · unfold fastboot_rx_state_waiting_tx_for_process
    split
    · exact reload_notin_handle_command _ _ _ _ _
    · simp
  · unfold fastboot_rx_state_waiting_tx_for_reboot_bootloader
    split <;> simp

theorem reload_notin_tick (cap epMax : Nat) (s : Fastboot)
    (inp : TickInput) :
    Event.reloadNyx ∉ (fastboot_tick cap epMax s inp).2.1 := by
  unfold fastboot_tick
  dsimp only
  split
  · split <;> simp
  · intro h
    simp only [List.mem_append] at h
    rcases h with ((h | h) | h) | h
    · split at h <;> simp at h
    · exact reload_notin_rx_dispatch _ _ _ _ h
    · rw [trace_tx_dispatch] at h
      simp at h
    · split at h <;> simp at h

theorem reload_notin_run (cap epMax : Nat) :
    ∀ (inputs : List TickInput) (s : Fastboot),
      Event.reloadNyx ∉ (fastboot_run cap epMax s inputs).2 := by
  intro inputs
  induction inputs with
  | nil => intro s; simp [fastboot_run]
  | cons inp rest ih =>
    intro s
    unfold fastboot_run
    split
    · dsimp only
      split
      · exact reload_notin_tick _ _ _ _
      · intro h
        rcases List.mem_append.1 h with h | h
        · exact reload_notin_tick _ _ _ _ h
        · exact ih _ h
    · simp

theorem ep0_status_ne_reboot (s : Fastboot) (b : Bool)
    (hs : s.status ≠ .rebootBootloader) :
    (if b then (fastboot_set_status s .protocolReset).1 else s).status ≠
      .rebootBootloader := by
  cases b
  · simpa using hs
  · have h2 := set_status_status_ne_reboot s .protocolReset (by simp) hs
    simpa using h2

/-- C6: after `reboot-bootloader`, the restart action is sequenced
correctly: (i) no scheduling-loop tick ever invokes `reload_nyx`; (ii) in
a full session it appears only when the terminal status is
`RebootBootloader`, and then only as the last event, strictly after the
transport `teardown`; (iii) a tick can only raise the status to
`RebootBootloader` if the tick began at the `WaitingTxForRebootBootloader`
gate with `tx_state` observed `Idle` — in particular (iv) the tick that
runs the interpreter (arming the `OKAY` response) can never itself raise
it, so the raise happens at least one tick after the response was armed,
once TX has drained. -/
theorem C6_reboot_sequencing :
    (∀ cap epMax s inp,
      Event.reloadNyx ∉ (fastboot_tick cap epMax s inp).2.1) ∧
    (∀ cap epMax s inputs,
      Event.reloadNyx ∈ (fastboot_session cap epMax s inputs).2 →
      (fastboot_session cap epMax s inputs).1.status = .rebootBootloader ∧
      ∃ pre, (fastboot_session cap epMax s inputs).2 =
          pre ++ [Event.teardown, Event.reloadNyx] ∧
        Event.reloadNyx ∉ pre) ∧
    (∀ cap epMax s inp, s.status = .normal →
      (fastboot_tick cap epMax s inp).1.status = .rebootBootloader →
      s.rx_state = .waitingTxForRebootBootloader ∧ s.tx_state = .idle) ∧
    (∀ cap epMax s inp, s.status = .normal →
      s.rx_state = .waitingTxForProcess →
      (fastboot_tick cap epMax s inp).1.status ≠ .rebootBootloader) := by
  have hc : ∀ cap epMax s inp, s.status = .normal →
      (fastboot_tick cap epMax s inp).1.status = .rebootBootloader →
      s.rx_state = .waitingTxForRebootBootloader ∧ s.tx_state = .idle := by
    intro cap epMax s inp hnorm hreb
    unfold fastboot_tick at hreb
    dsimp only at hreb
    split at hreb
    · rw [hnorm] at hreb
      cases hreb
    · have hs1 : (if inp.ep0_reset then
          (fastboot_set_status s .protocolReset).1 else s).status ≠
          .rebootBootloader :=
        ep0_status_ne_reboot s inp.ep0_reset (by rw [hnorm]; simp)
      by_cases hrx : s.rx_state = .waitingTxForRebootBootloader
      · refine ⟨hrx, ?_⟩
        by_cases htx : s.tx_state = .idle
        · exact htx
        · exfalso
          have hrx1 : (if inp.ep0_reset then
              (fastboot_set_status s .protocolReset).1 else s).rx_state =
              .waitingTxForRebootBootloader := by
            rw [ep0_rx_state]
            exact hrx
          have hgate : fastboot_rx_dispatch cap epMax
              (if inp.ep0_reset then
                (fastboot_set_status s .protocolReset).1 else s) inp =
              ((if inp.ep0_reset then
                (fastboot_set_status s .protocolReset).1 else s), []) := by
            unfold fastboot_rx_dispatch
            rw [hrx1]
            unfold fastboot_rx_state_waiting_tx_for_reboot_bootloader
            rw [ep0_tx_state, if_neg htx]
          rw [hgate] at hreb
          exact sr_tx_dispatch _ _ hs1 hreb
      · exact absurd hreb
          (sr_tx_dispatch _ _
            (sr_rx_dispatch _ _ _ _ hs1 (by rw [ep0_rx_state]; exact hrx)))
  refine ⟨fun cap epMax s inp => reload_notin_tick cap epMax s inp,
    ?_, hc, ?_⟩
  · intro cap epMax s inputs h
    unfold fastboot_session at h
    unfold fastboot_session
    dsimp only at h
    dsimp only
    by_cases hst : (fastboot_run cap epMax s inputs).1.status =
        .rebootBootloader
    · refine ⟨hst, (fastboot_run cap epMax s inputs).2, ?_,
        reload_notin_run _ _ _ _⟩
      rw [if_pos hst, List.append_assoc]
      rfl
    · exfalso
      rw [if_neg hst] at h
      rcases List.mem_append.1 h with h2 | h2
      · rcases List.mem_append.1 h2 with h3 | h3
        · exact reload_notin_run _ _ _ _ h3
        · simp at h3
      · simp at h2
  · intro cap epMax s inp hnorm hrx hreb
    have h2 := hc cap epMax s inp hnorm hreb
    rw [hrx] at h2
    cases h2.1

/-- The session state sitting at the reboot gate with TX drained. -/
def rebootGateState : Fastboot := { initialFastboot with rx_state := .waitingTxForRebootBootloader, tx_state := .idle }

/-- Witness for C6 on concrete runs: a one-tick session from the reboot
gate ends with status `RebootBootloader` (and its trace does contain
`reloadNyx`, discharging the hypothesis), the raise tick started at the
gate with TX idle, and an interpreter tick never raises the status. -/
theorem C6_reboot_sequencing_witness :
    (fastboot_session 1 1 rebootGateState [deliverInput 0]).1.status =
      .rebootBootloader ∧
    (rebootGateState.rx_state = .waitingTxForRebootBootloader ∧
      rebootGateState.tx_state = .idle) ∧
    (fastboot_tick 1 1 gateStateVersion (deliverInput 0)).1.status ≠
      .rebootBootloader := by
  refine ⟨?_, ?_, ?_⟩
  · exact (C6_reboot_sequencing.2.1 1 1 rebootGateState [deliverInput 0]
      (by decide)).1
  · exact C6_reboot_sequencing.2.2.1 1 1 rebootGateState (deliverInput 0)
      rfl (by decide)
  · exact C6_reboot_sequencing.2.2.2 1 1 gateStateVersion (deliverInput 0)
      rfl rfl

end HekateFastboot
